import Mathlib

/-!
Verification of the authentication module (`flaskr/auth.py`): registration,
login, logout, the per-request session identity loader and the
`login_required` access guard, shallowly embedded over a relational user
store and a key-value session.
-/

/-- A row of the `user` table: `id INTEGER PRIMARY KEY AUTOINCREMENT`,
`username TEXT UNIQUE NOT NULL`, `password TEXT NOT NULL` (the stored
password hash; the column is named `password` in the schema). -/
structure User where
  id : Nat
  username : String
  password : String
deriving DecidableEq, Repr

/-- The user table together with the id the next `INSERT` will receive.
`nextId` only ever grows (`AUTOINCREMENT`: row ids are never reused). -/
structure Db where
  rows : List User
  nextId : Nat
deriving DecidableEq, Repr

/-- The Flask session: signed, client-held key-value state. The code
stores only the `user_id` key, with a `Nat` value. -/
abbrev Session := List (String × Nat)

/-- `session.get(key)`. -/
def sessionGet (s : Session) (k : String) : Option Nat :=
  List.lookup k s

/-- `session.clear()`: removes every key, not just `user_id`. -/
def sessionClear (_s : Session) : Session := []

/-- `session[key] = value`. -/
def sessionSet (s : Session) (k : String) (v : Nat) : Session :=
  (k, v) :: s.filter (fun kv => kv.1 != k)

/-- The routes the module redirects to: `url_for('index')`,
`url_for('auth.login')`. -/
inductive Route where
  | index
  | authLogin
deriving DecidableEq, Repr

/-- The outcome of a view: `redirect(url_for(...))`, or
`render_template(name)` with at most one `flash`ed message. -/
inductive Response where
  | redirect (target : Route)
  | render (template : String) (flashed : Option String)
deriving DecidableEq, Repr

/-- Modelled from the spec: `werkzeug.security.generate_password_hash` is an
external collaborator (the Password Hasher of spec section 4.1) whose source is
not part of this repository. The spec requires a salted, algorithm-tagged
one-way digest; the salt is randomized per call by the environment, which we
model as an explicit `salt` argument. The model output is a tag character,
the embedded salt, a separator, then a digest from which `check_password_hash`
can recompute the comparison. -/
def generate_password_hash (salt : Nat) (password : String) : String :=
  String.mk ('h' :: (List.replicate salt 's' ++ '#' :: password.data))

/-- Consume the embedded salt of a stored hash up to the separator. -/
def stripSalt : List Char → Option (List Char)
  | '#' :: rest => some rest
  | 's' :: rest => stripSalt rest
  | _ => none

/-- Modelled from the spec: `werkzeug.security.check_password_hash` (external
collaborator, spec section 4.1) recomputes using the embedded salt and
algorithm tag and compares; a malformed hash verifies as `false`, it never
raises. Argument order follows werkzeug: the stored hash first, then the
candidate plaintext. -/
def check_password_hash (pwhash password : String) : Bool :=
  match pwhash.data with
  | 'h' :: rest =>
    match stripSalt rest with
    | some body => body == password.data
    | none => false
  | _ => false

/-- `SELECT * FROM user WHERE username = ?` followed by `fetchone()`:
the first row whose `username` column equals the parameter exactly
(case-sensitive, no normalization). -/
def selectUserByName (db : Db) (username : String) : Option User :=
  db.rows.find? (fun r => r.username == username)

/-- `SELECT * FROM user WHERE id = ?` followed by `fetchone()`. -/
def selectUserById (db : Db) (uid : Nat) : Option User :=
  db.rows.find? (fun r => r.id == uid)

/-- `INSERT INTO user (username, password) VALUES (?, ?)` followed by
`db.commit()`: appends one row with the next auto-increment id. -/
def insertUser (db : Db) (username pwhash : String) : Db :=
  { rows := db.rows ++ [{ id := db.nextId, username := username, password := pwhash }],
    nextId := db.nextId + 1 }

/-- Store-level failures the sqlite adapter can raise. -/
inductive DbError where
  | integrityError
deriving DecidableEq, Repr

/-- The same `INSERT`, exposing the store's `UNIQUE` constraint on
`username`: sqlite raises `IntegrityError` when a row with this username
already exists at insert time. -/
def insertUserChecked (db : Db) (username pwhash : String) : Except DbError Db :=
  if (db.rows.find? (fun r => r.username == username)).isSome then
    .error .integrityError
  else
    .ok (insertUser db username pwhash)

/-- The validation chain of `register` (first failure wins): empty
username, then empty password, then the duplicate pre-check
`SELECT id FROM user WHERE username = ?`. Returns the `error` variable
of the source. Python truthiness: `not username` holds exactly for the
empty string. -/
def registerErrorMsg (db : Db) (username password : String) : Option String :=
  if username = "" then some "Username is required."
  else if password = "" then some "Password is required."
  else if (db.rows.find? (fun r => r.username == username)).isSome then
    some ("User " ++ username ++ " is already registered.")
  else none

/-- The `POST` branch of the `register` view. The session is threaded
through untouched: the source never reads or writes it. On success the
password is hashed, one row is inserted and committed, and the view
redirects to `auth.login`; on failure the error is flashed and the form
re-rendered with the store unchanged. -/
def registerPost (db : Db) (s : Session) (salt : Nat) (username password : String) :
    Response × Db × Session :=
  match registerErrorMsg db username password with
  | none =>
      (.redirect .authLogin, insertUser db username (generate_password_hash salt password), s)
  | some e =>
      (.render "auth/register.html" (some e), db, s)

/-- The `POST` branch of `register` under a concurrent writer: `dbAtCheck`
is the store state the duplicate pre-check observes, `dbAtInsert` the state
the `INSERT` observes (they coincide when no other request runs in
between). The source wraps the `INSERT` in no `try`/`except`, so a store
exception propagates out of the view unhandled. -/
def registerPostRaced (dbAtCheck dbAtInsert : Db) (salt : Nat) (username password : String) :
    Except DbError (Response × Db) :=
  match registerErrorMsg dbAtCheck username password with
  | none =>
      match insertUserChecked dbAtInsert username (generate_password_hash salt password) with
      | .ok db' => .ok (.redirect .authLogin, db')
      | .error e => .error e
  | some e =>
      .ok (.render "auth/register.html" (some e), dbAtCheck)

/-- The result of the `POST` branch of the `login` view. `verifyCalls`
counts the invocations of `check_password_hash`, mirroring the source's
control flow (the `elif` never runs when the username lookup fails). -/
structure LoginResult where
  resp : Response
  sess : Session
  verifyCalls : Nat
deriving DecidableEq, Repr

/-- The `POST` branch of the `login` view: look up the row by exact
username; no row yields `Incorrect username.`, a failed
`check_password_hash` yields `Incorrect password.` (session untouched,
form re-rendered in both cases); otherwise `session.clear()`, then
`session['user_id'] = user['id']`, then redirect to `index`. -/
def loginPost (db : Db) (s : Session) (username password : String) : LoginResult :=
  match selectUserByName db username with
  | none =>
      { resp := .render "auth/login.html" (some "Incorrect username.")
        sess := s
        verifyCalls := 0 }
  | some user =>
      if check_password_hash user.password password then
        { resp := .redirect .index
          sess := sessionSet (sessionClear s) "user_id" user.id
          verifyCalls := 1 }
      else
        { resp := .render "auth/login.html" (some "Incorrect password.")
          sess := s
          verifyCalls := 1 }

/-- `load_logged_in_user`, run via `before_app_request`: reads
`session.get('user_id')`; absent yields `g.user = None`, otherwise
`g.user` is the row fetched by id (or `None` when stale). The session is
returned unchanged: the source only reads it. -/
def load_logged_in_user (db : Db) (s : Session) : Option User × Session :=
  match sessionGet s "user_id" with
  | none => (none, s)
  | some uid => (selectUserById db uid, s)

/-- The `logout` view: `session.clear()` then redirect to `index`. -/
def logout (s : Session) : Response × Session :=
  (.redirect .index, sessionClear s)

/-- The `login_required` decorator. A view is embedded as a state
transformer over an abstract side-effect state `σ`, taking its keyword
arguments `a : α`; the wrapper checks `g.user` and either short-circuits
with a redirect to `auth.login` (leaving `σ` untouched: the view never
runs) or calls the view unchanged. -/
def login_required {σ α : Type} (view : α → σ → Response × σ)
    (gUser : Option User) (a : α) (st : σ) : Response × σ :=
  match gUser with
  | none => (.redirect .authLogin, st)
  | some _ => view a st

/-- Concrete store used by the witnesses: one registered user. -/
def dbW : Db :=
  { rows := [{ id := 1, username := "alice", password := generate_password_hash 2 "pw1" }],
    nextId := 2 }

/-- Empty store, as observed by the duplicate pre-check in the race
counterexample. -/
def emptyDb : Db := { rows := [], nextId := 0 }

/-- Store after a concurrent registration of `u`, as observed by the
`INSERT` in the race counterexample. -/
def racedDb : Db :=
  { rows := [{ id := 0, username := "u", password := "x" }], nextId := 1 }

/-! ## Helper lemmas -/

theorem stripSalt_replicate (salt : Nat) (rest : List Char) :
    stripSalt (List.replicate salt 's' ++ '#' :: rest) = some rest := by
  induction salt with
  | zero => simp [stripSalt]
  | succ n ih => simpa [List.replicate_succ, stripSalt] using ih

theorem check_generate (salt : Nat) (p : String) :
    check_password_hash (generate_password_hash salt p) p = true := by
  simp [check_password_hash, generate_password_hash, stripSalt_replicate]

theorem generate_ne_plaintext (salt : Nat) (p : String) :
    generate_password_hash salt p ≠ p := by
  intro h
  have hlen := congrArg (fun s => s.data.length) h
  simp [generate_password_hash] at hlen
  omega

theorem selectUserByName_insert_self (db : Db) (u pwhash : String)
    (h : db.rows.find? (fun r => r.username == u) = none) :
    selectUserByName (insertUser db u pwhash) u =
      some { id := db.nextId, username := u, password := pwhash } := by
  simp [selectUserByName, insertUser, List.find?_append, h]

theorem selectUserById_insert (db : Db) (u pwhash : String) (uid : Nat)
    (h : uid ≠ db.nextId) :
    selectUserById (insertUser db u pwhash) uid = selectUserById db uid := by
  have hb : (db.nextId == uid) = false := by
    simpa using fun e => h e.symm
  simp [selectUserById, insertUser, List.find?_append, hb]

/-- `registerPostRaced` with the same store at both observation points is
the sequential `registerPost`: the pre-check guarantees the `INSERT`
succeeds, so the two embeddings agree when no concurrent writer runs. -/
theorem registerPostRaced_eq_sequential (db : Db) (s : Session) (salt : Nat)
    (u p : String) :
    registerPostRaced db db salt u p =
      .ok ((registerPost db s salt u p).1, (registerPost db s salt u p).2.1) := by
  unfold registerPostRaced registerPost registerErrorMsg insertUserChecked
  by_cases hu : u = "" <;> simp [hu]
  by_cases hp : p = "" <;> simp [hp]
  by_cases hf : ∃ x ∈ db.rows, x.username = u <;> simp [hf]

/-! ## Claim theorems -/

/-- C1: on `POST login(username, password)`: no row under the exact
username yields `Incorrect username.`; a row whose stored hash fails
`check_password_hash` yields `Incorrect password.`; in both error cases
the session is returned untouched and the form re-rendered; on success
the session is first cleared, then `user_id` is set to the row's id, and
the view redirects to the landing route `index`. -/
theorem login_decision_table (db : Db) (s : Session) (u p : String) :
    (selectUserByName db u = none →
      loginPost db s u p =
        { resp := .render "auth/login.html" (some "Incorrect username.")
          sess := s, verifyCalls := 0 })
  ∧ (∀ user, selectUserByName db u = some user →
      check_password_hash user.password p = false →
      loginPost db s u p =
        { resp := .render "auth/login.html" (some "Incorrect password.")
          sess := s, verifyCalls := 1 })
  ∧ (∀ user, selectUserByName db u = some user →
      check_password_hash user.password p = true →
      loginPost db s u p =
        { resp := .redirect .index
          sess := sessionSet (sessionClear s) "user_id" user.id
          verifyCalls := 1 }) := by
  refine ⟨fun h => ?_, fun user h hv => ?_, fun user h hv => ?_⟩
  · simp [loginPost, h]
  · simp [loginPost, h, hv]
  · simp [loginPost, h, hv]

/-- Witness for C1: each row of the decision table at a concrete store. -/
theorem login_decision_table_witness :
    loginPost dbW [] "bob" "x" =
      { resp := .render "auth/login.html" (some "Incorrect username.")
        sess := [], verifyCalls := 0 }
  ∧ loginPost dbW [] "alice" "bad" =
      { resp := .render "auth/login.html" (some "Incorrect password.")
        sess := [], verifyCalls := 1 }
  ∧ loginPost dbW [] "alice" "pw1" =
      { resp := .redirect .index, sess := [("user_id", 1)], verifyCalls := 1 } :=
  ⟨(login_decision_table dbW [] "bob" "x").1 (by decide),
   (login_decision_table dbW [] "alice" "bad").2.1
     { id := 1, username := "alice", password := generate_password_hash 2 "pw1" }
     (by decide) (by decide),
   (login_decision_table dbW [] "alice" "pw1").2.2
     { id := 1, username := "alice", password := generate_password_hash 2 "pw1" }
     (by decide) (by decide)⟩

/-- C2: on `POST register(username, password)` with both fields non-empty
and the username fresh, the view hashes the password, appends exactly one
row carrying the next id, commits, and redirects to `auth.login`; the
stored hash differs from the plaintext and verifies against it. -/
theorem register_success (db : Db) (s : Session) (salt : Nat) (u p : String)
    (hu : u ≠ "") (hp : p ≠ "") (hfresh : selectUserByName db u = none) :
    registerPost db s salt u p =
      (.redirect .authLogin,
        { rows := db.rows ++
            [{ id := db.nextId, username := u, password := generate_password_hash salt p }],
          nextId := db.nextId + 1 }, s)
  ∧ generate_password_hash salt p ≠ p
  ∧ check_password_hash (generate_password_hash salt p) p = true := by
  refine ⟨?_, generate_ne_plaintext salt p, check_generate salt p⟩
  have hf : db.rows.find? (fun r => r.username == u) = none := hfresh
  simp [registerPost, registerErrorMsg, insertUser, hu, hp, hf]

/-- Witness for C2: registering the fresh pair at an empty store. -/
theorem register_success_witness :
    registerPost emptyDb [] 0 "u" "p" =
      (.redirect .authLogin,
        { rows := [{ id := 0, username := "u", password := generate_password_hash 0 "p" }],
          nextId := 1 }, [])
  ∧ generate_password_hash 0 "p" ≠ "p"
  ∧ check_password_hash (generate_password_hash 0 "p") "p" = true :=
  register_success emptyDb [] 0 "u" "p" (by decide) (by decide) (by decide)

/-- C3: the validation chain of `POST register` runs in a fixed order and
short-circuits at the first failure: empty username flashes
`Username is required.`; else empty password flashes
`Password is required.`; else a username already in the store flashes the
already-registered message; each failure leaves the store unchanged (zero
rows created) and re-renders the form with the message. -/
theorem register_validation_order (db : Db) (s : Session) (salt : Nat) (u p : String) :
    (u = "" →
      registerPost db s salt u p =
        (.render "auth/register.html" (some "Username is required."), db, s))
  ∧ (u ≠ "" → p = "" →
      registerPost db s salt u p =
        (.render "auth/register.html" (some "Password is required."), db, s))
  ∧ (u ≠ "" → p ≠ "" → ∀ user, selectUserByName db u = some user →
      registerPost db s salt u p =
        (.render "auth/register.html"
          (some ("User " ++ u ++ " is already registered.")), db, s)) := by
  refine ⟨fun hu => ?_, fun hu hp => ?_, fun hu hp user hfound => ?_⟩
  · simp [registerPost, registerErrorMsg, hu]
  · simp [registerPost, registerErrorMsg, hu, hp]
  · have hf : db.rows.find? (fun r => r.username == u) = some user := hfound
    simp [registerPost, registerErrorMsg, hu, hp, hf]

/-- Witness for C3: the three failures at a concrete store, each leaving
it unchanged. -/
theorem register_validation_order_witness :
    registerPost dbW [] 0 "" "x" =
      (.render "auth/register.html" (some "Username is required."), dbW, [])
  ∧ registerPost dbW [] 0 "u" "" =
      (.render "auth/register.html" (some "Password is required."), dbW, [])
  ∧ registerPost dbW [] 0 "alice" "x" =
      (.render "auth/register.html"
        (some ("User " ++ "alice" ++ " is already registered.")), dbW, []) :=
  ⟨(register_validation_order dbW [] 0 "" "x").1 rfl,
   (register_validation_order dbW [] 0 "u" "").2.1 (by decide) rfl,
   (register_validation_order dbW [] 0 "alice" "x").2.2 (by decide) (by decide)
     { id := 1, username := "alice", password := generate_password_hash 2 "pw1" }
     (by decide)⟩

/-- C10: when no row matches the username, `POST login` behaves
identically for every password: same error, same untouched session, and
`check_password_hash` is never invoked (the `elif` short-circuits). -/
theorem login_unknown_username_uniform (db : Db) (s : Session) (u p₁ p₂ : String)
    (h : selectUserByName db u = none) :
    loginPost db s u p₁ = loginPost db s u p₂
  ∧ loginPost db s u p₁ =
      { resp := .render "auth/login.html" (some "Incorrect username.")
        sess := s, verifyCalls := 0 } := by
  constructor <;> simp [loginPost, h]

/-- Witness for C10: two different passwords for an unknown user give the
same result with zero verifier calls. -/
theorem login_unknown_username_uniform_witness :
    loginPost dbW [] "bob" "a" = loginPost dbW [] "bob" "b"
  ∧ loginPost dbW [] "bob" "a" =
      { resp := .render "auth/login.html" (some "Incorrect username.")
        sess := [], verifyCalls := 0 } :=
  login_unknown_username_uniform dbW [] "bob" "a" "b" (by decide)

/-- C4: round-trip — registering a fresh non-empty pair creates one row
with the next id, and logging in with the same pair against the updated
store succeeds, leaving `user_id` in the session equal to that row's id. -/
theorem register_then_login_roundtrip (db : Db) (s s' : Session) (salt : Nat) (u p : String)
    (hu : u ≠ "") (hp : p ≠ "") (hfresh : selectUserByName db u = none) :
    (registerPost db s salt u p).2.1.rows =
      db.rows ++ [{ id := db.nextId, username := u, password := generate_password_hash salt p }]
  ∧ loginPost (registerPost db s salt u p).2.1 s' u p =
      { resp := .redirect .index, sess := [("user_id", db.nextId)], verifyCalls := 1 } := by
  have hf : db.rows.find? (fun r => r.username == u) = none := hfresh
  have hdb : (registerPost db s salt u p).2.1 = insertUser db u (generate_password_hash salt p) := by
    simp [registerPost, registerErrorMsg, hu, hp, hf]
  constructor
  · rw [hdb]; rfl
  · rw [hdb]
    have hsel := selectUserByName_insert_self db u (generate_password_hash salt p) hf
    simp [loginPost, hsel, check_generate, sessionSet, sessionClear]

/-- Witness for C4: register then login at an empty store. -/
theorem register_then_login_roundtrip_witness :
    (registerPost emptyDb [] 0 "u" "p").2.1.rows =
      emptyDb.rows ++
        [{ id := emptyDb.nextId, username := "u", password := generate_password_hash 0 "p" }]
  ∧ loginPost (registerPost emptyDb [] 0 "u" "p").2.1 [] "u" "p" =
      { resp := .redirect .index, sess := [("user_id", emptyDb.nextId)], verifyCalls := 1 } :=
  register_then_login_roundtrip emptyDb [] [] 0 "u" "p" (by decide) (by decide) (by decide)

/-- C5: the per-request identity loader — absent `user_id` yields an
anonymous `g.user`; a `user_id` that resolves yields that row; a stale
`user_id` yields anonymous without raising; in every case the session is
returned unmodified. -/
theorem load_logged_in_user_spec (db : Db) (s : Session) :
    (sessionGet s "user_id" = none → load_logged_in_user db s = (none, s))
  ∧ (∀ uid user, sessionGet s "user_id" = some uid → selectUserById db uid = some user →
      load_logged_in_user db s = (some user, s))
  ∧ (∀ uid, sessionGet s "user_id" = some uid → selectUserById db uid = none →
      load_logged_in_user db s = (none, s)) := by
  refine ⟨fun h => ?_, fun uid user h hfind => ?_, fun uid h hfind => ?_⟩
  · simp [load_logged_in_user, h]
  · simp [load_logged_in_user, h, hfind]
  · simp [load_logged_in_user, h, hfind]

/-- Witness for C5: anonymous, resolving, and stale sessions at a
concrete store. -/
theorem load_logged_in_user_spec_witness :
    load_logged_in_user dbW [] = (none, [])
  ∧ load_logged_in_user dbW [("user_id", 1)] =
      (some { id := 1, username := "alice", password := generate_password_hash 2 "pw1" },
       [("user_id", 1)])
  ∧ load_logged_in_user dbW [("user_id", 99)] = (none, [("user_id", 99)]) :=
  ⟨(load_logged_in_user_spec dbW []).1 (by decide),
   (load_logged_in_user_spec dbW [("user_id", 1)]).2.1 1
     { id := 1, username := "alice", password := generate_password_hash 2 "pw1" }
     (by decide) (by decide),
   (load_logged_in_user_spec dbW [("user_id", 99)]).2.2 99 (by decide) (by decide)⟩

/-- C6: the `login_required` guard — with `g.user = None` it returns a
redirect to `auth.login`, leaves the side-effect state untouched, and its
result does not depend on the wrapped view at all (the view is never
invoked); with a user present it invokes the view on the same arguments
and passes its result through unchanged. -/
theorem login_required_guard {σ α : Type} (view view' : α → σ → Response × σ)
    (a : α) (st : σ) :
    login_required view none a st = (.redirect .authLogin, st)
  ∧ login_required view none a st = login_required view' none a st
  ∧ ∀ u, login_required view (some u) a st = view a st :=
  ⟨rfl, rfl, fun _ => rfl⟩

/-- C7: `logout` — unconditionally clears the whole session, is
idempotent (on an empty session it is a no-op success, and logout after
logout gives the same result), redirects to the landing route, and a
subsequent identity load yields anonymous. -/
theorem logout_spec (db : Db) (s : Session) :
    logout s = (.redirect .index, ([] : Session))
  ∧ logout ((logout s).2) = logout s
  ∧ logout ([] : Session) = (.redirect .index, ([] : Session))
  ∧ (load_logged_in_user db (logout s).2).1 = none :=
  ⟨rfl, rfl, rfl, rfl⟩

/-- C8 counterexample: the duplicate pre-check observes an empty store,
but a concurrent registration of the same username commits before the
`INSERT`; the store raises `IntegrityError` and — the view having no
`try`/`except` — the exception propagates out of `register` unhandled,
instead of being surfaced as a user-correctable conflict message. -/
theorem register_race_counterexample :
    registerPostRaced emptyDb racedDb 0 "u" "p" = .error .integrityError
  ∧ registerPostRaced emptyDb racedDb 0 "u" "p" ≠
      .ok (.render "auth/register.html"
        (some ("User " ++ "u" ++ " is already registered.")), racedDb) := by
  refine ⟨rfl, fun h => ?_⟩
  exact Except.noConfusion
    ((rfl : registerPostRaced emptyDb racedDb 0 "u" "p" =
        Except.error DbError.integrityError).symm.trans h)

/-- C8 amended: whenever the pre-check passes but the `INSERT` hits the
uniqueness constraint, `register` propagates the store's
`IntegrityError` to the caller unhandled. -/
theorem register_race_propagates (dbAtCheck dbAtInsert : Db) (salt : Nat) (u p : String)
    (hmsg : registerErrorMsg dbAtCheck u p = none)
    (hdup : (dbAtInsert.rows.find? (fun r => r.username == u)).isSome = true) :
    registerPostRaced dbAtCheck dbAtInsert salt u p = .error .integrityError := by
  simp [registerPostRaced, hmsg, insertUserChecked, hdup]

/-- Witness for the amended C8: the concrete raced stores. -/
theorem register_race_propagates_witness :
    registerErrorMsg emptyDb "u" "p" = none
  ∧ (racedDb.rows.find? (fun r => r.username == "u")).isSome = true
  ∧ registerPostRaced emptyDb racedDb 1 "u" "p" = .error .integrityError :=
  ⟨by decide, by decide,
   register_race_propagates emptyDb racedDb 1 "u" "p" (by decide) (by decide)⟩

/-- C9: `register` never touches the session — the session component is
returned unchanged — and the request-scoped identity is unaffected: as
long as the session's `user_id` (if any) is not the fresh id the insert
would mint (guaranteed on reachable states, since `AUTOINCREMENT` never
re-issues an id that a session could already hold), the identity loader
resolves to the same `g.user` before and after the call. -/
theorem register_session_frame (db : Db) (s : Session) (salt : Nat) (u p : String)
    (hstale : sessionGet s "user_id" ≠ some db.nextId) :
    (registerPost db s salt u p).2.2 = s
  ∧ (load_logged_in_user (registerPost db s salt u p).2.1 s).1 =
      (load_logged_in_user db s).1 := by
  constructor
  · unfold registerPost
    cases registerErrorMsg db u p <;> rfl
  · cases hmsg : registerErrorMsg db u p with
    | some e => simp [registerPost, hmsg]
    | none =>
      cases hg : sessionGet s "user_id" with
      | none => simp [registerPost, hmsg, load_logged_in_user, hg]
      | some uid =>
        have huid : uid ≠ db.nextId := fun e => hstale (hg.symm ▸ e ▸ rfl)
        simp [registerPost, hmsg, load_logged_in_user, hg,
          selectUserById_insert db u (generate_password_hash salt p) uid huid]

/-- Witness for C9: registering a new user with another user's session
active leaves that session and its resolved identity intact. -/
theorem register_session_frame_witness :
    (registerPost dbW [("user_id", 1)] 0 "bob" "x").2.2 = [("user_id", 1)]
  ∧ (load_logged_in_user (registerPost dbW [("user_id", 1)] 0 "bob" "x").2.1
        [("user_id", 1)]).1 =
      (load_logged_in_user dbW [("user_id", 1)]).1 :=
  register_session_frame dbW [("user_id", 1)] 0 "bob" "x" (by decide)
